import Mathlib

/-
Shallow embedding of the Frame2TTL host drivers:
  - src/Software/Python/frame2ttl.py          (v4 generation, class Frame2TTL)
  - src/Software/Legacy/Python/v2/Frame2TTLv2.py (v2 generation, class Frame2TTLv2)

The serial transport (ArCom) is an external collaborator: the embedding
records every typed transaction the driver hands to it as an F2Action, and
takes device replies as explicit inputs.  Machine-width decodes are made
explicit with `% 2^w` arithmetic.  Python exceptions become `Except`:
when an exception propagates after partial mutation, the Outcome still
carries the mutated state and the actions already emitted, exactly as the
Python object would be left.
-/

/-- Error kinds raised by the drivers.  The Python code raises a single
exception class (Frame2TTLError / F2TTLError) with distinguishing messages;
the spec classifies the raise sites into these kinds. -/
inductive F2Error where
  | handshake
  | version
  | validation
  | mode
  deriving DecidableEq

/-- One typed transaction handed to the serial transport, mirroring the
ArCom write/read/sleep calls in the source.  Write actions carry the value
the driver passed together with its declared width tag; fixed-width
byte-level serialization is the responsibility of the transport collaborator. -/
inductive F2Action where
  | writeU8 (b : Nat)
  | writeU8Pair (b1 b2 : Nat)
  | writeI32 (v : Int)
  | writeU32 (v : Nat)
  | writeI16Pair (v1 v2 : Int)
  | sleepMs (ms : Nat)
  | readI32
  | readI16
  | readU16 (n : Nat)
  | reopen (baud : Nat)
  deriving DecidableEq

/-- Decode 4 raw bytes (given as a Nat) as a twos-complement int32,
as the transport read(1, int32) does. -/
def decodeI32 (raw : Nat) : Int :=
  if raw % 4294967296 < 2147483648 then ((raw % 4294967296 : Nat) : Int)
  else ((raw % 4294967296 : Nat) : Int) - 4294967296

namespace Frame2TTL

/-- In-memory state of a connected v4 Frame2TTL object (the underscore
attributes of the Python class).  The Python @property getters
light_threshold / dark_threshold / detect_mode return these fields. -/
structure Session where
  firmware_version : Nat
  hardware_version : Nat
  detect_mode : Nat
  light_threshold : Int
  dark_threshold : Int
  activation_margin : Int
  deriving DecidableEq

/-- Result of one driver operation: the Except value of the Python call,
the object state afterwards (also after a raised exception), and the
transactions handed to the transport. -/
structure Outcome (α : Type) where
  result : Except F2Error α
  state : Session
  trace : List F2Action

/-- Sequencing of two statements where the first may raise: the second
runs only if the first succeeded; traces accumulate. -/
def Outcome.andThen (r : Outcome Unit) (f : Session → Outcome Unit) : Outcome Unit :=
  match r.result with
  | Except.error e => ⟨Except.error e, r.state, r.trace⟩
  | Except.ok _ =>
      ⟨(f r.state).result, (f r.state).state, r.trace ++ (f r.state).trace⟩

/-- light_threshold.setter, frame2ttl.py lines 113-125.  `is_int` models
the Python isinstance(value, int) test.  Note the source checks
`value <= 65535` in the detect_mode 0 range test (not 65535 - margin),
and `value >= self.dark_threshold` for the ordering test.  On success it
writes opcode T (84) with the value as int32, then commits the field. -/
def set_light_threshold (s : Session) (value : Int) (is_int : Bool) : Outcome Unit :=
  if value ≤ 0 ∨ is_int = false then
    ⟨Except.error F2Error.validation, s, []⟩
  else if s.detect_mode = 0 then
    if ¬(s.activation_margin ≤ value ∧ value ≤ 65535) then
      ⟨Except.error F2Error.validation, s, []⟩
    else if s.dark_threshold ≤ value then
      ⟨Except.error F2Error.validation, s, []⟩
    else
      ⟨Except.ok (), { s with light_threshold := value },
        [F2Action.writeU8 84, F2Action.writeI32 value]⟩
  else
    ⟨Except.ok (), { s with light_threshold := value },
      [F2Action.writeU8 84, F2Action.writeI32 value]⟩

/-- dark_threshold.setter, frame2ttl.py lines 131-143.  Note that the source
detect_mode 0 range test is `value >= 0 and value <= 65535 - margin`
(lower bound 0, not the margin), and the ordering test is
`value <= self.light_threshold`.  On success it writes opcode K (75)
with the value as int32, then commits the field. -/
def set_dark_threshold (s : Session) (value : Int) (is_int : Bool) : Outcome Unit :=
  if (s.detect_mode = 1 ∧ 0 ≤ value) ∨ is_int = false then
    ⟨Except.error F2Error.validation, s, []⟩
  else if s.detect_mode = 0 then
    if ¬(0 ≤ value ∧ value ≤ 65535 - s.activation_margin) then
      ⟨Except.error F2Error.validation, s, []⟩
    else if value ≤ s.light_threshold then
      ⟨Except.error F2Error.validation, s, []⟩
    else
      ⟨Except.ok (), { s with dark_threshold := value },
        [F2Action.writeU8 75, F2Action.writeI32 value]⟩
  else
    ⟨Except.ok (), { s with dark_threshold := value },
      [F2Action.writeU8 75, F2Action.writeI32 value]⟩

/-- Frame2TTL._set_threshold_defaults, frame2ttl.py lines 195-205.
The Python method assigns `self.dark_threshold = 30000` etc., i.e. it goes
through the validating public setters, which can raise. -/
def set_threshold_defaults (s : Session) (dm : Nat) : Outcome Unit :=
  if dm = 0 then
    Outcome.andThen (set_dark_threshold s 30000 true)
      (fun s2 => set_light_threshold s2 20000 true)
  else if dm = 1 then
    if s.hardware_version = 2 then
      Outcome.andThen (set_light_threshold s 100 true)
        (fun s2 => set_dark_threshold s2 (-150) true)
    else if s.hardware_version = 3 then
      Outcome.andThen (set_light_threshold s 75 true)
        (fun s2 => set_dark_threshold s2 (-75) true)
    else ⟨Except.ok (), s, []⟩
  else ⟨Except.ok (), s, []⟩

/-- detect_mode.setter, frame2ttl.py lines 149-157.  Validates membership
in [0, 1], writes the (M, value) uint8 pair, commits the mode, and on an
actual mode change applies the default thresholds of the new mode (which can raise
after the mode field was already changed). -/
def set_detect_mode (s : Session) (value : Int) : Outcome Unit :=
  if ¬(value = 0 ∨ value = 1) then
    ⟨Except.error F2Error.validation, s, []⟩
  else if value.toNat ≠ s.detect_mode then
    ⟨(set_threshold_defaults { s with detect_mode := value.toNat } value.toNat).result,
      (set_threshold_defaults { s with detect_mode := value.toNat } value.toNat).state,
      F2Action.writeU8Pair 77 value.toNat ::
        (set_threshold_defaults { s with detect_mode := value.toNat } value.toNat).trace⟩
  else
    ⟨Except.ok (), { s with detect_mode := value.toNat },
      [F2Action.writeU8Pair 77 value.toNat]⟩

/-- Frame2TTL.set_dark_threshold_auto, frame2ttl.py lines 159-165.
`raw` is the 4-byte device reply.  In detect_mode 1 it writes opcode
D (68), sleeps 3 seconds, reads one int32 and stores it directly in
_dark_threshold (bypassing the validating setter). -/
def set_dark_threshold_auto (s : Session) (raw : Nat) : Outcome Unit :=
  if s.detect_mode = 0 then
    ⟨Except.error F2Error.mode, s, []⟩
  else
    ⟨Except.ok (), { s with dark_threshold := decodeI32 raw },
      [F2Action.writeU8 68, F2Action.sleepMs 3000, F2Action.readI32]⟩

/-- Frame2TTL.set_light_threshold_auto, frame2ttl.py lines 167-173.
Same shape with opcode L (76) and _light_threshold. -/
def set_light_threshold_auto (s : Session) (raw : Nat) : Outcome Unit :=
  if s.detect_mode = 0 then
    ⟨Except.error F2Error.mode, s, []⟩
  else
    ⟨Except.ok (), { s with light_threshold := decodeI32 raw },
      [F2Action.writeU8 76, F2Action.sleepMs 3000, F2Action.readI32]⟩

/-- Frame2TTL.read_sensor, frame2ttl.py lines 175-181.  `device` supplies
the raw 16-bit words the sensor returns; a uint16 decode always lands in
[0, 65535], made explicit by `% 65536`. -/
def read_sensor (s : Session) (n : Int) (is_int : Bool) (device : Nat → Nat) :
    Outcome (List Nat) :=
  if n ≤ 0 ∨ is_int = false then
    ⟨Except.error F2Error.validation, s, []⟩
  else
    ⟨Except.ok ((List.range n.toNat).map (fun i => device i % 65536)), s,
      [F2Action.writeU8 86, F2Action.writeU32 n.toNat, F2Action.readU16 n.toNat]⟩

/-- The device-side inputs consumed by Frame2TTL.__init__: the handshake
reply byte, whether a firmware-version reply byte arrived within the 0.25 s
window (bytes_available() > 0), and the firmware / hardware reply bytes. -/
structure ConnectInput where
  handshake_reply : Nat
  fw_reply_present : Bool
  fw_reply : Nat
  hw_reply : Nat

/-- Frame2TTL.__init__, frame2ttl.py lines 62-107.  Handshake (C, reply
must be 218), firmware version gate (absent or < 4 is too old, > 4 too
new), hardware version query (hw 3 reopens the port at 480000000 baud),
then the hard-coded defaults 75 / -75 / margin 1000 / mode 1, the
`self.detect_mode = 1` assignment (mode unchanged, so no defaults call),
and the single G (71) + uint32 activation-margin write. -/
def connect (inp : ConnectInput) : Except F2Error Session × List F2Action :=
  let t0 : List F2Action := [F2Action.writeU8 67]
  if inp.handshake_reply % 256 ≠ 218 then
    (Except.error F2Error.handshake, t0)
  else
    let t1 := t0 ++ [F2Action.writeU8 70, F2Action.sleepMs 250]
    let fw := inp.fw_reply % 256
    if inp.fw_reply_present = false ∨ fw < 4 then
      (Except.error F2Error.version, t1)
    else if 4 < fw then
      (Except.error F2Error.version, t1)
    else
      let t2 := t1 ++ [F2Action.writeU8 35]
      let hw := inp.hw_reply % 256
      let t3 := if hw = 3 then t2 ++ [F2Action.reopen 480000000] else t2
      let s0 : Session := ⟨fw, hw, 1, 75, -75, 1000⟩
      let r := set_detect_mode s0 1
      match r.result with
      | Except.error e => (Except.error e, t3 ++ r.trace)
      | Except.ok _ =>
          (Except.ok r.state,
            t3 ++ r.trace ++ [F2Action.writeU8 71, F2Action.writeU32 1000])

end Frame2TTL

namespace Frame2TTLv2

/-- In-memory state of a Frame2TTLv2 object (the legacy v2 driver). -/
structure SessionV2 where
  lightThreshold : Int
  darkThreshold : Int
  deriving DecidableEq

/-- Frame2TTLv2.__init__, Frame2TTLv2.py lines 21-33: handshake (reply
must be 218), then hardware version must equal 2; defaults 100 / -150. -/
def connect (handshake_reply hw_reply : Nat) :
    Except F2Error SessionV2 × List F2Action :=
  if handshake_reply % 256 ≠ 218 then
    (Except.error F2Error.handshake, [F2Action.writeU8 67])
  else if hw_reply % 256 ≠ 2 then
    (Except.error F2Error.version, [F2Action.writeU8 67, F2Action.writeU8 35])
  else
    (Except.ok ⟨100, -150⟩, [F2Action.writeU8 67, F2Action.writeU8 35])

/-- Frame2TTLv2.lightThreshold setter, lines 38-41: no validation at all;
writes opcode T with the (value, darkThreshold) int16 pair, then commits. -/
def set_lightThreshold (s : SessionV2) (value : Int) : SessionV2 × List F2Action :=
  ({ s with lightThreshold := value },
    [F2Action.writeU8 84, F2Action.writeI16Pair value s.darkThreshold])

/-- Frame2TTLv2.darkThreshold setter, lines 47-50: no validation at all;
writes opcode T with the (lightThreshold, value) int16 pair, then commits. -/
def set_darkThreshold (s : SessionV2) (value : Int) : SessionV2 × List F2Action :=
  ({ s with darkThreshold := value },
    [F2Action.writeU8 84, F2Action.writeI16Pair s.lightThreshold value])

/-- Frame2TTLv2.read_sensor, lines 64-67: no validation of nSamples; the
count is handed to the transport with a uint32 tag (numpy wraps it mod
2^32) and the same count of uint16 words is read back. -/
def read_sensor (_s : SessionV2) (nSamples : Int) (device : Nat → Nat) :
    List Nat × List F2Action :=
  ((List.range (Int.toNat (nSamples % 4294967296))).map (fun i => device i % 65536),
    [F2Action.writeU8 86, F2Action.writeU32 (Int.toNat (nSamples % 4294967296)),
      F2Action.readU16 (Int.toNat (nSamples % 4294967296))])

end Frame2TTLv2

namespace Frame2TTL

/-- Mode-0 (amplitude) well-formedness of the stored thresholds, with the
margin fixed at 1000: both thresholds inside [1000, 64535] and
light strictly below dark (the trip-point ordering of this generation). -/
def amplitudeOk (s : Session) : Prop :=
  1000 ≤ s.light_threshold ∧ s.light_threshold ≤ 64535 ∧
  1000 ≤ s.dark_threshold ∧ s.dark_threshold ≤ 64535 ∧
  s.light_threshold < s.dark_threshold

/-- Mode-1 (derivative) well-formedness: positive light threshold,
negative dark threshold. -/
def derivativeOk (s : Session) : Prop :=
  0 < s.light_threshold ∧ s.dark_threshold < 0

/-- A session in amplitude mode with well-formed thresholds. -/
def amplitudeInv (s : Session) : Prop :=
  s.detect_mode = 0 ∧ s.activation_margin = 1000 ∧ amplitudeOk s

/-- The session invariant of the spec: margin 1000, a legal mode, and the
mode-appropriate threshold constraints. -/
def sessionInv (s : Session) : Prop :=
  s.activation_margin = 1000 ∧ (s.detect_mode = 0 ∨ s.detect_mode = 1) ∧
  (s.detect_mode = 0 → amplitudeOk s) ∧ (s.detect_mode = 1 → derivativeOk s)

/-- True exactly on a transmission of the activation-margin opcode G (71). -/
def isWriteG (a : F2Action) : Bool :=
  match a with
  | F2Action.writeU8 b => b == 71
  | _ => false

/-- Number of G-opcode transmissions in a trace. -/
def countG (t : List F2Action) : Nat := List.countP isWriteG t

/-- The session produced by a connect with handshake 218, firmware reply
present and equal to 4, and hardware reply 3. -/
def s_hw3 : Session := ⟨4, 3, 1, 75, -75, 1000⟩

/-- s_hw3 after a legal derivative-mode set of light_threshold to 40000. -/
def s_big : Session := ⟨4, 3, 1, 40000, -75, 1000⟩

/-- s_hw3 after switching detect_mode to 0 (amplitude defaults applied). -/
def s_amp : Session := ⟨4, 3, 0, 20000, 30000, 1000⟩

/-- A device that always returns the zero word. -/
def zeroDevice : Nat → Nat := fun _ => 0

theorem set_dark_30000 (s : Session) (h0 : s.detect_mode = 0)
    (hm : s.activation_margin = 1000) (hl : s.light_threshold < 30000) :
    set_dark_threshold s 30000 true =
      ⟨Except.ok (), { s with dark_threshold := 30000 },
        [F2Action.writeU8 75, F2Action.writeI32 30000]⟩ := by
  unfold set_dark_threshold
  split_ifs <;> simp_all <;> omega

theorem set_light_20000 (s : Session) (h0 : s.detect_mode = 0)
    (hm : s.activation_margin = 1000) (hd : 20000 < s.dark_threshold) :
    set_light_threshold s 20000 true =
      ⟨Except.ok (), { s with light_threshold := 20000 },
        [F2Action.writeU8 84, F2Action.writeI32 20000]⟩ := by
  unfold set_light_threshold
  split_ifs <;> simp_all <;> omega

theorem set_light_pos (s : Session) (v : Int) (h1 : s.detect_mode = 1) (hv : 0 < v) :
    set_light_threshold s v true =
      ⟨Except.ok (), { s with light_threshold := v },
        [F2Action.writeU8 84, F2Action.writeI32 v]⟩ := by
  unfold set_light_threshold
  split_ifs <;> simp_all <;> omega

theorem set_dark_neg (s : Session) (v : Int) (h1 : s.detect_mode = 1) (hv : v < 0) :
    set_dark_threshold s v true =
      ⟨Except.ok (), { s with dark_threshold := v },
        [F2Action.writeU8 75, F2Action.writeI32 v]⟩ := by
  unfold set_dark_threshold
  split_ifs <;> simp_all <;> omega

theorem defaults_zero_eval (s : Session) (h0 : s.detect_mode = 0)
    (hm : s.activation_margin = 1000) (hl : s.light_threshold < 30000) :
    set_threshold_defaults s 0 =
      ⟨Except.ok (), { s with dark_threshold := 30000, light_threshold := 20000 },
        [F2Action.writeU8 75, F2Action.writeI32 30000,
         F2Action.writeU8 84, F2Action.writeI32 20000]⟩ := by
  unfold set_threshold_defaults
  rw [if_pos rfl, set_dark_30000 s h0 hm hl]
  simp only [Outcome.andThen]
  rw [set_light_20000 { s with dark_threshold := 30000 } h0 hm (by norm_num)]
  rfl

theorem defaults_one_eval_hw2 (s : Session) (h1 : s.detect_mode = 1)
    (hhw : s.hardware_version = 2) :
    set_threshold_defaults s 1 =
      ⟨Except.ok (), { s with light_threshold := 100, dark_threshold := -150 },
        [F2Action.writeU8 84, F2Action.writeI32 100,
         F2Action.writeU8 75, F2Action.writeI32 (-150)]⟩ := by
  unfold set_threshold_defaults
  rw [if_neg (by norm_num), if_pos rfl, if_pos hhw,
    set_light_pos s 100 h1 (by norm_num)]
  simp only [Outcome.andThen]
  rw [set_dark_neg { s with light_threshold := 100 } (-150) h1 (by norm_num)]
  rfl

theorem defaults_one_eval_hw3 (s : Session) (h1 : s.detect_mode = 1)
    (hhw2 : s.hardware_version ≠ 2) (hhw : s.hardware_version = 3) :
    set_threshold_defaults s 1 =
      ⟨Except.ok (), { s with light_threshold := 75, dark_threshold := -75 },
        [F2Action.writeU8 84, F2Action.writeI32 75,
         F2Action.writeU8 75, F2Action.writeI32 (-75)]⟩ := by
  unfold set_threshold_defaults
  rw [if_neg (by norm_num), if_pos rfl, if_neg hhw2, if_pos hhw,
    set_light_pos s 75 h1 (by norm_num)]
  simp only [Outcome.andThen]
  rw [set_dark_neg { s with light_threshold := 75 } (-75) h1 (by norm_num)]
  rfl

end Frame2TTL

namespace Frame2TTL

/-- The detect_mode assignment in __init__ (value 1 with mode already 1):
writes the (M, 1) pair and does not touch the thresholds. -/
theorem set_detect_mode_same_one (s : Session) (h : s.detect_mode = 1) :
    set_detect_mode s 1 =
      ⟨Except.ok (), { s with detect_mode := 1 }, [F2Action.writeU8Pair 77 1]⟩ := by
  unfold set_detect_mode
  rw [if_neg (by norm_num), if_neg (by simp [Int.toNat_one, h])]
  rfl

/-- connect with a bad handshake byte: handshake error after the single C
write. -/
theorem connect_handshake_fail (inp : ConnectInput)
    (h : inp.handshake_reply % 256 ≠ 218) :
    connect inp = (Except.error F2Error.handshake, [F2Action.writeU8 67]) := by
  simp only [connect]
  rw [if_pos h]

/-- connect with an absent firmware reply or firmware below 4: version
error. -/
theorem connect_version_fail_old (inp : ConnectInput)
    (h1 : inp.handshake_reply % 256 = 218)
    (h2 : inp.fw_reply_present = false ∨ inp.fw_reply % 256 < 4) :
    connect inp = (Except.error F2Error.version,
      [F2Action.writeU8 67, F2Action.writeU8 70, F2Action.sleepMs 250]) := by
  simp only [connect]
  rw [if_neg (by omega), if_pos h2]
  rfl

/-- connect with firmware above 4: version error. -/
theorem connect_version_fail_new (inp : ConnectInput)
    (h1 : inp.handshake_reply % 256 = 218) (h2 : inp.fw_reply_present = true)
    (h3 : 4 < inp.fw_reply % 256) :
    connect inp = (Except.error F2Error.version,
      [F2Action.writeU8 67, F2Action.writeU8 70, F2Action.sleepMs 250]) := by
  simp only [connect]
  rw [if_neg (by omega), if_neg (by simp [h2]; omega), if_pos h3]
  rfl

/-- Full evaluation of a successful connect: the session fields and the
complete write trace (one reopen when the hardware reports version 3). -/
theorem connect_ok_eval (inp : ConnectInput) (h1 : inp.handshake_reply % 256 = 218)
    (h2 : inp.fw_reply_present = true) (h3 : inp.fw_reply % 256 = 4) :
    connect inp =
      (Except.ok ⟨4, inp.hw_reply % 256, 1, 75, -75, 1000⟩,
        [F2Action.writeU8 67, F2Action.writeU8 70, F2Action.sleepMs 250,
          F2Action.writeU8 35] ++
          (if inp.hw_reply % 256 = 3 then [F2Action.reopen 480000000] else []) ++
          [F2Action.writeU8Pair 77 1, F2Action.writeU8 71, F2Action.writeU32 1000]) := by
  simp only [connect]
  rw [if_neg (by omega), if_neg (by simp [h2]; omega), if_neg (by omega), h3,
    set_detect_mode_same_one ⟨4, inp.hw_reply % 256, 1, 75, -75, 1000⟩ rfl]
  split_ifs <;> rfl

/-- A successful connect forces handshake byte 218, a present firmware
reply, and firmware exactly 4. -/
theorem connect_ok_conditions (inp : ConnectInput) (s : Session)
    (h : (connect inp).1 = Except.ok s) :
    inp.handshake_reply % 256 = 218 ∧ inp.fw_reply_present = true ∧
    inp.fw_reply % 256 = 4 := by
  by_cases c1 : inp.handshake_reply % 256 = 218
  · by_cases c2 : inp.fw_reply_present = true
    · by_cases c3 : inp.fw_reply % 256 = 4
      · exact ⟨c1, c2, c3⟩
      · rcases Nat.lt_or_ge (inp.fw_reply % 256) 4 with hlt | hge
        · rw [connect_version_fail_old inp c1 (Or.inr hlt)] at h
          exact Except.noConfusion h
        · have hgt : 4 < inp.fw_reply % 256 := by omega
          rw [connect_version_fail_new inp c1 c2 hgt] at h
          exact Except.noConfusion h
    · have hb : inp.fw_reply_present = false := by
        cases hx : inp.fw_reply_present
        · rfl
        · exact absurd hx c2
      rw [connect_version_fail_old inp c1 (Or.inl hb)] at h
      exact Except.noConfusion h
  · rw [connect_handshake_fail inp c1] at h
    exact Except.noConfusion h

/-- The session a successful connect returns: firmware 4, the reported
hardware byte, mode 1, thresholds 75 and -75, margin 1000. -/
theorem connect_ok_shape (inp : ConnectInput) (s : Session)
    (h : (connect inp).1 = Except.ok s) :
    s = ⟨4, inp.hw_reply % 256, 1, 75, -75, 1000⟩ := by
  obtain ⟨c1, c2, c3⟩ := connect_ok_conditions inp s h
  rw [connect_ok_eval inp c1 c2 c3] at h
  injection h with h5
  exact h5.symm

end Frame2TTL

namespace Frame2TTL

theorem andThen_margin_countG (m : Int) (r : Outcome Unit) (f : Session → Outcome Unit)
    (h1 : countG r.trace = 0) (h3 : r.state.activation_margin = m)
    (h2 : ∀ t, (f t).state.activation_margin = t.activation_margin ∧
      countG (f t).trace = 0) :
    (r.andThen f).state.activation_margin = m ∧ countG (r.andThen f).trace = 0 := by
  unfold Outcome.andThen
  cases hres : r.result with
  | error e =>
      exact ⟨h3, h1⟩
  | ok a =>
      refine ⟨by rw [show (f r.state).state.activation_margin = _ from (h2 r.state).1, h3], ?_⟩
      show countG (r.trace ++ (f r.state).trace) = 0
      simp only [countG, List.countP_append] at h1 ⊢
      have hz := (h2 r.state).2
      rw [countG] at hz
      rw [h1, hz]

theorem light_margin_countG (s : Session) (v : Int) (b : Bool) :
    (set_light_threshold s v b).state.activation_margin = s.activation_margin ∧
    countG (set_light_threshold s v b).trace = 0 := by
  unfold set_light_threshold
  split_ifs <;> simp [countG, isWriteG, List.countP_cons, List.countP_nil]

theorem dark_margin_countG (s : Session) (v : Int) (b : Bool) :
    (set_dark_threshold s v b).state.activation_margin = s.activation_margin ∧
    countG (set_dark_threshold s v b).trace = 0 := by
  unfold set_dark_threshold
  split_ifs <;> simp [countG, isWriteG, List.countP_cons, List.countP_nil]

theorem defaults_margin_countG (s : Session) (dm : Nat) :
    (set_threshold_defaults s dm).state.activation_margin = s.activation_margin ∧
    countG (set_threshold_defaults s dm).trace = 0 := by
  unfold set_threshold_defaults
  split_ifs
  · exact andThen_margin_countG s.activation_margin _ _
      (dark_margin_countG s 30000 true).2 (dark_margin_countG s 30000 true).1
      (fun t => light_margin_countG t 20000 true)
  · exact andThen_margin_countG s.activation_margin _ _
      (light_margin_countG s 100 true).2 (light_margin_countG s 100 true).1
      (fun t => dark_margin_countG t (-150) true)
  · exact andThen_margin_countG s.activation_margin _ _
      (light_margin_countG s 75 true).2 (light_margin_countG s 75 true).1
      (fun t => dark_margin_countG t (-75) true)
  · exact ⟨rfl, rfl⟩
  · exact ⟨rfl, rfl⟩

theorem mode_margin_countG (s : Session) (v : Int) :
    (set_detect_mode s v).state.activation_margin = s.activation_margin ∧
    countG (set_detect_mode s v).trace = 0 := by
  unfold set_detect_mode
  split_ifs
  all_goals
    first
      | exact ⟨rfl, rfl⟩
      | (refine ⟨(defaults_margin_countG { s with detect_mode := v.toNat } v.toNat).1, ?_⟩
         show countG (F2Action.writeU8Pair 77 v.toNat ::
           (set_threshold_defaults { s with detect_mode := v.toNat } v.toNat).trace) = 0
         rw [countG, List.countP_cons]
         have hz := (defaults_margin_countG { s with detect_mode := v.toNat } v.toNat).2
         rw [countG] at hz
         simp [isWriteG, hz])

end Frame2TTL

namespace Frame2TTL

theorem inv_pres_light (s : Session) (v : Int) (b : Bool) (hinv : sessionInv s) :
    sessionInv (set_light_threshold s v b).state := by
  obtain ⟨hmarg, hmode, hamp, hder⟩ := hinv
  unfold set_light_threshold
  split_ifs with h1 h2 h3 h4 <;>
    simp_all [sessionInv, amplitudeOk, derivativeOk] <;> omega

theorem inv_pres_dark (s : Session) (v : Int) (b : Bool) (hinv : sessionInv s) :
    sessionInv (set_dark_threshold s v b).state := by
  obtain ⟨hmarg, hmode, hamp, hder⟩ := hinv
  unfold set_dark_threshold
  split_ifs with h1 h2 h3 h4 <;>
    simp_all [sessionInv, amplitudeOk, derivativeOk] <;> omega

theorem inv_pres_mode (s : Session) (v : Int) (hinv : sessionInv s)
    (hhw : s.hardware_version = 2 ∨ s.hardware_version = 3)
    (hlight : v = 0 → s.light_threshold < 30000) :
    sessionInv (set_detect_mode s v).state := by
  obtain ⟨hmarg, hmode, hamp, hder⟩ := hinv
  by_cases hval : v = 0 ∨ v = 1
  · rcases hval with rfl | rfl
    · by_cases hch : (0 : Int).toNat ≠ s.detect_mode
      · have hl30 : s.light_threshold < 30000 := hlight rfl
        unfold set_detect_mode
        rw [if_neg (by norm_num), if_pos hch]
        simp only [Int.toNat_zero]
        rw [defaults_zero_eval { s with detect_mode := 0 } rfl hmarg hl30]
        exact ⟨hmarg, Or.inl rfl,
          fun _ => ⟨by norm_num, by norm_num, by norm_num, by norm_num, by norm_num⟩,
          fun h => absurd h (by norm_num)⟩
      · unfold set_detect_mode
        rw [if_neg (by norm_num), if_neg hch]
        have hm0 : s.detect_mode = 0 := by
          simp only [Int.toNat_zero] at hch
          omega
        exact ⟨hmarg, Or.inl rfl, fun _ => hamp hm0, fun h => absurd h (by norm_num)⟩
    · by_cases hch : (1 : Int).toNat ≠ s.detect_mode
      · unfold set_detect_mode
        rw [if_neg (by norm_num), if_pos hch]
        simp only [Int.toNat_one]
        rcases hhw with hw2 | hw3
        · rw [defaults_one_eval_hw2 { s with detect_mode := 1 } rfl hw2]
          exact ⟨hmarg, Or.inr rfl, fun h => absurd h (by norm_num),
            fun _ => ⟨by norm_num, by norm_num⟩⟩
        · rw [defaults_one_eval_hw3 { s with detect_mode := 1 } rfl
            (by rw [hw3]; norm_num) hw3]
          exact ⟨hmarg, Or.inr rfl, fun h => absurd h (by norm_num),
            fun _ => ⟨by norm_num, by norm_num⟩⟩
      · unfold set_detect_mode
        rw [if_neg (by norm_num), if_neg hch]
        have hm1 : s.detect_mode = 1 := by
          simp only [Int.toNat_one] at hch
          omega
        exact ⟨hmarg, Or.inr rfl, fun h => absurd h (by norm_num), fun _ => hder hm1⟩
  · unfold set_detect_mode
    rw [if_pos hval]
    exact ⟨hmarg, hmode, hamp, hder⟩

theorem inv_connect (inp : ConnectInput) (s : Session)
    (h : (connect inp).1 = Except.ok s) : sessionInv s := by
  rw [connect_ok_shape inp s h]
  refine ⟨rfl, Or.inr rfl, fun hc => absurd hc (by norm_num), fun _ => ?_⟩
  exact ⟨by norm_num, by norm_num⟩

end Frame2TTL

namespace Frame2TTL

/-- C1: In amplitude mode (detect_mode 0, v4 generation, margin 1000), a
set_light_threshold or set_dark_threshold call with a value violating the
ordering/range invariant (new light at or above the current dark, new dark
at or below the current light, or the value outside [1000, 64535]) fails
with a ValidationError, transmits nothing, and leaves the state unchanged;
every value inside [1000, 64535] that keeps light_threshold strictly below
dark_threshold is accepted. -/
theorem amplitude_threshold_validation (s : Session) (hinv : amplitudeInv s) (v : Int) :
    ((s.dark_threshold ≤ v ∨ v < 1000 ∨ 64535 < v) →
        (set_light_threshold s v true).result = Except.error F2Error.validation ∧
        (set_light_threshold s v true).trace = [] ∧
        (set_light_threshold s v true).state = s) ∧
    ((1000 ≤ v ∧ v ≤ 64535 ∧ v < s.dark_threshold) →
        (set_light_threshold s v true).result = Except.ok ()) ∧
    ((v ≤ s.light_threshold ∨ v < 1000 ∨ 64535 < v) →
        (set_dark_threshold s v true).result = Except.error F2Error.validation ∧
        (set_dark_threshold s v true).trace = [] ∧
        (set_dark_threshold s v true).state = s) ∧
    ((1000 ≤ v ∧ v ≤ 64535 ∧ s.light_threshold < v) →
        (set_dark_threshold s v true).result = Except.ok ()) := by
  obtain ⟨hmode, hmarg, hl1, hl2, hd1, hd2, hld⟩ := hinv
  refine ⟨?_, ?_, ?_, ?_⟩ <;> intro hv <;>
    simp only [set_light_threshold, set_dark_threshold, hmode, hmarg] <;>
    split_ifs with h1 h2 h3 <;>
    simp_all <;> omega

/-- Witness for C1 at the concrete amplitude-mode session s_amp
(light 20000, dark 30000). -/
theorem amplitude_threshold_validation_witness :
    (set_light_threshold s_amp 500 true).result = Except.error F2Error.validation ∧
    (set_light_threshold s_amp 25000 true).result = Except.ok () ∧
    (set_dark_threshold s_amp 64536 true).result = Except.error F2Error.validation ∧
    (set_dark_threshold s_amp 25000 true).result = Except.ok () := by
  have hinv : amplitudeInv s_amp := by
    refine ⟨rfl, rfl, ?_, ?_, ?_, ?_, ?_⟩ <;> norm_num [s_amp]
  exact ⟨((amplitude_threshold_validation s_amp hinv 500).1 (by norm_num [s_amp])).1,
    (amplitude_threshold_validation s_amp hinv 25000).2.1 (by norm_num [s_amp]),
    ((amplitude_threshold_validation s_amp hinv 64536).2.2.1 (by norm_num [s_amp])).1,
    (amplitude_threshold_validation s_amp hinv 25000).2.2.2 (by norm_num [s_amp])⟩

/-- C2 (code bug): after a successful connect the stored thresholds are
75 and -75 regardless of the hardware version.  With hardware_version 2
the session does NOT get the hw2 derivative defaults 100 / -150 that
_set_threshold_defaults prescribes (and that the legacy v2 driver uses),
because the `detect_mode = 1` assignment in __init__ does not change the
mode and therefore never calls _set_threshold_defaults.  The third
conjunct shows what _set_threshold_defaults would have stored for hw2. -/
theorem connect_hw2_defaults_bug :
    (connect ⟨218, true, 4, 2⟩).1 = Except.ok ⟨4, 2, 1, 75, -75, 1000⟩ ∧
    (connect ⟨218, true, 4, 3⟩).1 = Except.ok ⟨4, 3, 1, 75, -75, 1000⟩ ∧
    set_threshold_defaults ⟨4, 2, 1, 75, -75, 1000⟩ 1 =
      ⟨Except.ok (), ⟨4, 2, 1, 100, -150, 1000⟩,
        [F2Action.writeU8 84, F2Action.writeI32 100,
         F2Action.writeU8 75, F2Action.writeI32 (-150)]⟩ :=
  ⟨rfl, rfl, rfl⟩

/-- C3 counterexample: in the legacy v2 generation (always derivative
mode) setting lightThreshold to the invalid value -5 raises nothing,
transmits the T command carrying -5, and commits -5. -/
theorem v2_setter_no_validation_counterexample :
    (Frame2TTLv2.set_lightThreshold ⟨100, -150⟩ (-5)).1.lightThreshold = -5 ∧
    (Frame2TTLv2.set_lightThreshold ⟨100, -150⟩ (-5)).2 =
      [F2Action.writeU8 84, F2Action.writeI16Pair (-5) (-150)] :=
  ⟨rfl, rfl⟩

/-- C3 amended: in the v4 generation a set with an invalid derivative-mode
value (light non-positive or non-integer; dark non-negative or non-integer
while in mode 1) fails with ValidationError, transmits nothing and leaves
the state unchanged; the legacy v2 generation performs no validation and
always transmits and commits the value. -/
theorem derivative_threshold_validation_v4 :
    (∀ (s : Session) (v : Int) (b : Bool), v ≤ 0 ∨ b = false →
        (set_light_threshold s v b).result = Except.error F2Error.validation ∧
        (set_light_threshold s v b).trace = [] ∧
        (set_light_threshold s v b).state = s) ∧
    (∀ (s : Session) (v : Int) (b : Bool), s.detect_mode = 1 → (0 ≤ v ∨ b = false) →
        (set_dark_threshold s v b).result = Except.error F2Error.validation ∧
        (set_dark_threshold s v b).trace = [] ∧
        (set_dark_threshold s v b).state = s) ∧
    (∀ (s : Frame2TTLv2.SessionV2) (v : Int),
        (Frame2TTLv2.set_lightThreshold s v).1.lightThreshold = v ∧
        (Frame2TTLv2.set_lightThreshold s v).2 =
          [F2Action.writeU8 84, F2Action.writeI16Pair v s.darkThreshold]) ∧
    (∀ (s : Frame2TTLv2.SessionV2) (v : Int),
        (Frame2TTLv2.set_darkThreshold s v).1.darkThreshold = v ∧
        (Frame2TTLv2.set_darkThreshold s v).2 =
          [F2Action.writeU8 84, F2Action.writeI16Pair s.lightThreshold v]) := by
  refine ⟨?_, ?_, fun s v => ⟨rfl, rfl⟩, fun s v => ⟨rfl, rfl⟩⟩
  · intro s v b hv
    unfold set_light_threshold
    rw [if_pos hv]
    exact ⟨rfl, rfl, rfl⟩
  · intro s v b h1 hv
    have hc : (s.detect_mode = 1 ∧ 0 ≤ v) ∨ b = false := by
      rcases hv with h | h
      · exact Or.inl ⟨h1, h⟩
      · exact Or.inr h
    unfold set_dark_threshold
    rw [if_pos hc]
    exact ⟨rfl, rfl, rfl⟩

/-- Witness for C3 amended: invalid derivative sets on the fresh hw3
session are refused. -/
theorem derivative_threshold_validation_v4_witness :
    (set_light_threshold s_hw3 (-5) true).result = Except.error F2Error.validation ∧
    (set_dark_threshold s_hw3 5 true).result = Except.error F2Error.validation :=
  ⟨(derivative_threshold_validation_v4.1 s_hw3 (-5) true (Or.inl (by norm_num))).1,
   (derivative_threshold_validation_v4.2.1 s_hw3 5 true rfl (Or.inl (by norm_num))).1⟩

end Frame2TTL

namespace Frame2TTL

/-- C4 counterexample: from the freshly connected hw3 session (derivative
mode), automatic dark-threshold calibration with a device reply of 50
succeeds and stores dark_threshold = 50, violating the derivative-mode
constraint dark_threshold < 0 — the driver never validates the reply. -/
theorem auto_threshold_invariant_counterexample :
    (connect ⟨218, true, 4, 3⟩).1 = Except.ok s_hw3 ∧
    (set_dark_threshold_auto s_hw3 50).result = Except.ok () ∧
    (set_dark_threshold_auto s_hw3 50).state.detect_mode = 1 ∧
    (set_dark_threshold_auto s_hw3 50).state.dark_threshold = 50 ∧
    ¬ derivativeOk (set_dark_threshold_auto s_hw3 50).state := by
  refine ⟨rfl, rfl, rfl, rfl, ?_⟩
  intro hok
  have h50 : (set_dark_threshold_auto s_hw3 50).state.dark_threshold = 50 := rfl
  have hneg := hok.2
  rw [h50] at hneg
  norm_num at hneg

/-- C4 amended: the generation/mode threshold invariant holds after
connect and is preserved by the validating setters always, by
set_detect_mode on supported hardware (version 2 or 3) provided a switch
into amplitude mode starts from light_threshold < 30000 (otherwise the
switch itself raises mid-way), and by read_sensor; auto-calibration
preserves it exactly when the device reply has the required sign, since
the code stores the reply unvalidated. -/
theorem session_invariant_preservation :
    (∀ (inp : ConnectInput) (s : Session), (connect inp).1 = Except.ok s →
        sessionInv s) ∧
    (∀ (s : Session) (v : Int) (b : Bool), sessionInv s →
        sessionInv (set_light_threshold s v b).state) ∧
    (∀ (s : Session) (v : Int) (b : Bool), sessionInv s →
        sessionInv (set_dark_threshold s v b).state) ∧
    (∀ (s : Session) (v : Int), sessionInv s →
        s.hardware_version = 2 ∨ s.hardware_version = 3 →
        (v = 0 → s.light_threshold < 30000) →
        sessionInv (set_detect_mode s v).state) ∧
    (∀ (s : Session) (raw : Nat), sessionInv s →
        (s.detect_mode = 1 → decodeI32 raw < 0) →
        sessionInv (set_dark_threshold_auto s raw).state) ∧
    (∀ (s : Session) (raw : Nat), sessionInv s →
        (s.detect_mode = 1 → 0 < decodeI32 raw) →
        sessionInv (set_light_threshold_auto s raw).state) ∧
    (∀ (s : Session) (n : Int) (b : Bool) (d : Nat → Nat), sessionInv s →
        sessionInv (read_sensor s n b d).state) := by
  refine ⟨inv_connect, inv_pres_light, inv_pres_dark, inv_pres_mode, ?_, ?_, ?_⟩
  · intro s raw hinv hraw
    obtain ⟨hmarg, hmode, hamp, hder⟩ := hinv
    unfold set_dark_threshold_auto
    split_ifs with h0
    · exact ⟨hmarg, hmode, hamp, hder⟩
    · have hm1 : s.detect_mode = 1 := by
        rcases hmode with h | h
        · exact absurd h h0
        · exact h
      exact ⟨hmarg, hmode, fun hc => absurd hc h0,
        fun _ => ⟨(hder hm1).1, hraw hm1⟩⟩
  · intro s raw hinv hraw
    obtain ⟨hmarg, hmode, hamp, hder⟩ := hinv
    unfold set_light_threshold_auto
    split_ifs with h0
    · exact ⟨hmarg, hmode, hamp, hder⟩
    · have hm1 : s.detect_mode = 1 := by
        rcases hmode with h | h
        · exact absurd h h0
        · exact h
      exact ⟨hmarg, hmode, fun hc => absurd hc h0,
        fun _ => ⟨hraw hm1, (hder hm1).2⟩⟩
  · intro s n b d hinv
    unfold read_sensor
    split_ifs <;> exact hinv

/-- Witness for C4 amended: the invariant holds for the session obtained
by connecting (hw 3) and then switching to amplitude mode. -/
theorem session_invariant_preservation_witness :
    sessionInv (set_detect_mode s_hw3 0).state :=
  session_invariant_preservation.2.2.2.1 s_hw3 0
    (session_invariant_preservation.1 ⟨218, true, 4, 3⟩ s_hw3 rfl)
    (Or.inr rfl) (fun _ => by norm_num [s_hw3])

/-- C5 (code bug): switching detect_mode from derivative to amplitude does
not always reset the thresholds.  From the reachable derivative-mode state
with light_threshold 40000 (accepted by the setter, since derivative mode
admits any positive integer), set_detect_mode 0 raises the dark-default
validation error (the default 30000 is not above 40000) after the mode
byte was already transmitted and the mode field committed, leaving the
session in amplitude mode with the old thresholds 40000 and -75 — a state
the setters themselves forbid — instead of the defaults 20000 / 30000. -/
theorem detect_mode_switch_reset_bug :
    (set_light_threshold s_hw3 40000 true).result = Except.ok () ∧
    (set_light_threshold s_hw3 40000 true).state = s_big ∧
    (set_detect_mode s_big 0).result = Except.error F2Error.validation ∧
    (set_detect_mode s_big 0).state = ⟨4, 3, 0, 40000, -75, 1000⟩ ∧
    (set_detect_mode s_big 0).trace = [F2Action.writeU8Pair 77 0] :=
  ⟨rfl, rfl, rfl, rfl, rfl⟩

/-- C6: connect succeeds exactly when the handshake byte is 218, a
firmware reply arrived, and the firmware version is exactly 4 (the version
this generation supports); a bad handshake byte yields the handshake error
and no session, an absent reply or older firmware yields the version
error, newer firmware also yields the version error; the legacy v2
connect likewise refuses a bad handshake byte with no session. -/
theorem connect_handshake_version_gate :
    (∀ inp : ConnectInput, inp.handshake_reply % 256 ≠ 218 →
        (connect inp).1 = Except.error F2Error.handshake) ∧
    (∀ inp : ConnectInput, inp.handshake_reply % 256 = 218 →
        (inp.fw_reply_present = false ∨ inp.fw_reply % 256 < 4) →
        (connect inp).1 = Except.error F2Error.version) ∧
    (∀ inp : ConnectInput, inp.handshake_reply % 256 = 218 →
        inp.fw_reply_present = true → 4 < inp.fw_reply % 256 →
        (connect inp).1 = Except.error F2Error.version) ∧
    (∀ inp : ConnectInput, (∃ s, (connect inp).1 = Except.ok s) ↔
        (inp.handshake_reply % 256 = 218 ∧ inp.fw_reply_present = true ∧
          inp.fw_reply % 256 = 4)) ∧
    (∀ hs hw : Nat, hs % 256 ≠ 218 →
        (Frame2TTLv2.connect hs hw).1 = Except.error F2Error.handshake) := by
  refine ⟨?_, ?_, ?_, ?_, ?_⟩
  · intro inp h
    rw [connect_handshake_fail inp h]
  · intro inp h1 h2
    rw [connect_version_fail_old inp h1 h2]
  · intro inp h1 h2 h3
    rw [connect_version_fail_new inp h1 h2 h3]
  · intro inp
    constructor
    · rintro ⟨s, hok⟩
      exact connect_ok_conditions inp s hok
    · rintro ⟨h1, h2, h3⟩
      exact ⟨⟨4, inp.hw_reply % 256, 1, 75, -75, 1000⟩,
        by rw [connect_ok_eval inp h1 h2 h3]⟩
  · intro hs hw h
    unfold Frame2TTLv2.connect
    rw [if_pos h]

/-- Witness for C6 at concrete connect inputs. -/
theorem connect_handshake_version_gate_witness :
    (connect ⟨17, true, 4, 2⟩).1 = Except.error F2Error.handshake ∧
    (connect ⟨218, false, 4, 2⟩).1 = Except.error F2Error.version ∧
    (connect ⟨218, true, 3, 2⟩).1 = Except.error F2Error.version ∧
    (connect ⟨218, true, 5, 2⟩).1 = Except.error F2Error.version ∧
    (∃ s, (connect ⟨218, true, 4, 2⟩).1 = Except.ok s) ∧
    (Frame2TTLv2.connect 17 2).1 = Except.error F2Error.handshake :=
  ⟨connect_handshake_version_gate.1 ⟨17, true, 4, 2⟩ (by norm_num),
   connect_handshake_version_gate.2.1 ⟨218, false, 4, 2⟩ (by norm_num) (Or.inl rfl),
   connect_handshake_version_gate.2.1 ⟨218, true, 3, 2⟩ (by norm_num)
     (Or.inr (by norm_num)),
   connect_handshake_version_gate.2.2.1 ⟨218, true, 5, 2⟩ (by norm_num) rfl (by norm_num),
   (connect_handshake_version_gate.2.2.2.1 ⟨218, true, 4, 2⟩).2
     ⟨by norm_num, rfl, by norm_num⟩,
   connect_handshake_version_gate.2.2.2.2 17 2 (by norm_num)⟩

end Frame2TTL

namespace Frame2TTL

/-- C7 counterexample: the legacy v2 read_sensor performs no validation:
read_sensor(0) raises nothing and still transmits the V command with the
count 0 to the device (and returns the empty sample list). -/
theorem v2_read_sensor_no_validation_counterexample :
    (Frame2TTLv2.read_sensor ⟨100, -150⟩ 0 zeroDevice).1 = [] ∧
    (Frame2TTLv2.read_sensor ⟨100, -150⟩ 0 zeroDevice).2 =
      [F2Action.writeU8 86, F2Action.writeU32 0, F2Action.readU16 0] :=
  ⟨rfl, rfl⟩

/-- C7 amended: in the v4 generation read_sensor(n) fails with
ValidationError and transmits nothing when n is non-positive or not an
integer; for a positive integer n it transmits the V opcode with n as the
unsigned 32-bit count and returns exactly n samples, each in [0, 65535].
The legacy v2 generation transmits the count without any validation. -/
theorem read_sensor_validation_v4 :
    (∀ (s : Session) (n : Int) (b : Bool) (d : Nat → Nat), n ≤ 0 ∨ b = false →
        (read_sensor s n b d).result = Except.error F2Error.validation ∧
        (read_sensor s n b d).trace = []) ∧
    (∀ (s : Session) (n : Int) (d : Nat → Nat), 0 < n →
        ∃ samples, (read_sensor s n true d).result = Except.ok samples ∧
          samples.length = n.toNat ∧ (∀ x ∈ samples, x ≤ 65535) ∧
          (read_sensor s n true d).trace =
            [F2Action.writeU8 86, F2Action.writeU32 n.toNat,
              F2Action.readU16 n.toNat]) ∧
    (∀ (s : Frame2TTLv2.SessionV2) (n : Int) (d : Nat → Nat),
        (Frame2TTLv2.read_sensor s n d).2 =
          [F2Action.writeU8 86, F2Action.writeU32 (Int.toNat (n % 4294967296)),
            F2Action.readU16 (Int.toNat (n % 4294967296))]) := by
  refine ⟨?_, ?_, fun s n d => rfl⟩
  · intro s n b d h
    unfold read_sensor
    rw [if_pos h]
    exact ⟨rfl, rfl⟩
  · intro s n d hn
    unfold read_sensor
    rw [if_neg (by push_neg; exact ⟨by omega, by simp⟩)]
    refine ⟨_, rfl, by simp, ?_, rfl⟩
    intro x hx
    simp only [List.mem_map, List.mem_range] at hx
    obtain ⟨i, _, rfl⟩ := hx
    have hlt : d i % 65536 < 65536 := Nat.mod_lt _ (by norm_num)
    omega

/-- Witness for C7 amended: read_sensor(0) refused, read_sensor(100)
returns 100 bounded samples. -/
theorem read_sensor_validation_v4_witness :
    (read_sensor s_hw3 0 true zeroDevice).result = Except.error F2Error.validation ∧
    (∃ samples,
      (read_sensor s_hw3 100 true zeroDevice).result = Except.ok samples ∧
      samples.length = 100 ∧ ∀ x ∈ samples, x ≤ 65535) := by
  constructor
  · exact (read_sensor_validation_v4.1 s_hw3 0 true zeroDevice
      (Or.inl (by norm_num))).1
  · obtain ⟨samples, h1, h2, h3, h4⟩ :=
      read_sensor_validation_v4.2.1 s_hw3 100 zeroDevice (by norm_num)
    exact ⟨samples, h1, by simpa using h2, h3⟩

/-- C8: in amplitude mode both auto-calibration commands fail with the
mode error and transmit nothing; in derivative mode each sends exactly its
one opcode (D = 68 for dark, L = 76 for light), sleeps 3000 ms, reads one
signed 32-bit value and stores the decoded value as the corresponding
threshold. -/
theorem auto_calibration_mode_gate :
    (∀ (s : Session) (raw : Nat), s.detect_mode = 0 →
        set_dark_threshold_auto s raw = ⟨Except.error F2Error.mode, s, []⟩ ∧
        set_light_threshold_auto s raw = ⟨Except.error F2Error.mode, s, []⟩) ∧
    (∀ (s : Session) (raw : Nat), s.detect_mode = 1 →
        set_dark_threshold_auto s raw =
          ⟨Except.ok (), { s with dark_threshold := decodeI32 raw },
            [F2Action.writeU8 68, F2Action.sleepMs 3000, F2Action.readI32]⟩ ∧
        set_light_threshold_auto s raw =
          ⟨Except.ok (), { s with light_threshold := decodeI32 raw },
            [F2Action.writeU8 76, F2Action.sleepMs 3000, F2Action.readI32]⟩) := by
  constructor
  · intro s raw h0
    unfold set_dark_threshold_auto set_light_threshold_auto
    rw [if_pos h0, if_pos h0]
    exact ⟨rfl, rfl⟩
  · intro s raw h1
    unfold set_dark_threshold_auto set_light_threshold_auto
    rw [if_neg (by omega), if_neg (by omega)]
    exact ⟨rfl, rfl⟩

/-- Witness for C8 at the amplitude session s_amp and the derivative
session s_hw3. -/
theorem auto_calibration_mode_gate_witness :
    (set_dark_threshold_auto s_amp 50).result = Except.error F2Error.mode ∧
    (set_dark_threshold_auto s_hw3 50).state.dark_threshold = decodeI32 50 := by
  constructor
  · rw [(auto_calibration_mode_gate.1 s_amp 50 rfl).1]
  · rw [(auto_calibration_mode_gate.2 s_hw3 50 rfl).1]

/-- C9: whenever a threshold set succeeds, the transmitted payload carries
exactly the requested value (opcode T = 84 or K = 75 with the int32 value
in the v4 generation; opcode T with the int16 pair containing the value in
the v2 generation) and the stored threshold returned by a subsequent query
equals that value. -/
theorem threshold_set_roundtrip :
    (∀ (s : Session) (v : Int) (b : Bool),
        (set_light_threshold s v b).result = Except.ok () →
        (set_light_threshold s v b).state.light_threshold = v ∧
        (set_light_threshold s v b).trace =
          [F2Action.writeU8 84, F2Action.writeI32 v]) ∧
    (∀ (s : Session) (v : Int) (b : Bool),
        (set_dark_threshold s v b).result = Except.ok () →
        (set_dark_threshold s v b).state.dark_threshold = v ∧
        (set_dark_threshold s v b).trace =
          [F2Action.writeU8 75, F2Action.writeI32 v]) ∧
    (∀ (s : Frame2TTLv2.SessionV2) (v : Int),
        (Frame2TTLv2.set_lightThreshold s v).1.lightThreshold = v ∧
        (Frame2TTLv2.set_lightThreshold s v).2 =
          [F2Action.writeU8 84, F2Action.writeI16Pair v s.darkThreshold]) ∧
    (∀ (s : Frame2TTLv2.SessionV2) (v : Int),
        (Frame2TTLv2.set_darkThreshold s v).1.darkThreshold = v ∧
        (Frame2TTLv2.set_darkThreshold s v).2 =
          [F2Action.writeU8 84, F2Action.writeI16Pair s.lightThreshold v]) := by
  refine ⟨?_, ?_, fun s v => ⟨rfl, rfl⟩, fun s v => ⟨rfl, rfl⟩⟩
  · intro s v b h
    unfold set_light_threshold at h ⊢
    split_ifs at h ⊢
    all_goals exact ⟨rfl, rfl⟩
  · intro s v b h
    unfold set_dark_threshold at h ⊢
    split_ifs at h ⊢
    all_goals exact ⟨rfl, rfl⟩

/-- Witness for C9: setting light_threshold 80 on the fresh hw3 session
stores 80 and transmits exactly 80. -/
theorem threshold_set_roundtrip_witness :
    (set_light_threshold s_hw3 80 true).state.light_threshold = 80 ∧
    (set_light_threshold s_hw3 80 true).trace =
      [F2Action.writeU8 84, F2Action.writeI32 80] :=
  threshold_set_roundtrip.1 s_hw3 80 true rfl

/-- C10: the activation margin is the constant 1000 for the whole v4
session: a successful connect stores margin 1000 and transmits opcode G
(71) exactly once — as the final command pair G + uint32 1000 — and every
public operation leaves the margin unchanged and never writes G again. -/
theorem activation_margin_constant :
    (∀ (inp : ConnectInput) (s : Session), (connect inp).1 = Except.ok s →
        s.activation_margin = 1000 ∧
        countG (connect inp).2 = 1 ∧
        ∃ t, (connect inp).2 = t ++ [F2Action.writeU8 71, F2Action.writeU32 1000]) ∧
    (∀ (s : Session) (v : Int) (b : Bool),
        (set_light_threshold s v b).state.activation_margin = s.activation_margin ∧
        countG (set_light_threshold s v b).trace = 0) ∧
    (∀ (s : Session) (v : Int) (b : Bool),
        (set_dark_threshold s v b).state.activation_margin = s.activation_margin ∧
        countG (set_dark_threshold s v b).trace = 0) ∧
    (∀ (s : Session) (v : Int),
        (set_detect_mode s v).state.activation_margin = s.activation_margin ∧
        countG (set_detect_mode s v).trace = 0) ∧
    (∀ (s : Session) (raw : Nat),
        (set_dark_threshold_auto s raw).state.activation_margin =
          s.activation_margin ∧
        countG (set_dark_threshold_auto s raw).trace = 0) ∧
    (∀ (s : Session) (raw : Nat),
        (set_light_threshold_auto s raw).state.activation_margin =
          s.activation_margin ∧
        countG (set_light_threshold_auto s raw).trace = 0) ∧
    (∀ (s : Session) (n : Int) (b : Bool) (d : Nat → Nat),
        (read_sensor s n b d).state.activation_margin = s.activation_margin ∧
        countG (read_sensor s n b d).trace = 0) := by
  refine ⟨?_, light_margin_countG, dark_margin_countG, mode_margin_countG, ?_, ?_, ?_⟩
  · intro inp s h
    obtain ⟨c1, c2, c3⟩ := connect_ok_conditions inp s h
    have heval := connect_ok_eval inp c1 c2 c3
    have hs : s = ⟨4, inp.hw_reply % 256, 1, 75, -75, 1000⟩ := connect_ok_shape inp s h
    refine ⟨by rw [hs], ?_, ?_⟩
    · rw [heval]
      by_cases hw3 : inp.hw_reply % 256 = 3
      · rw [if_pos hw3]
        simp [countG, isWriteG, List.countP_append, List.countP_cons]
      · rw [if_neg hw3]
        simp [countG, isWriteG, List.countP_append, List.countP_cons]
    · rw [heval]
      by_cases hw3 : inp.hw_reply % 256 = 3
      · rw [if_pos hw3]
        exact ⟨[F2Action.writeU8 67, F2Action.writeU8 70, F2Action.sleepMs 250,
          F2Action.writeU8 35, F2Action.reopen 480000000, F2Action.writeU8Pair 77 1],
          by simp⟩
      · rw [if_neg hw3]
        exact ⟨[F2Action.writeU8 67, F2Action.writeU8 70, F2Action.sleepMs 250,
          F2Action.writeU8 35, F2Action.writeU8Pair 77 1], by simp⟩
  · intro s raw
    unfold set_dark_threshold_auto
    split_ifs <;> exact ⟨rfl, rfl⟩
  · intro s raw
    unfold set_light_threshold_auto
    split_ifs <;> exact ⟨rfl, rfl⟩
  · intro s n b d
    unfold read_sensor
    split_ifs <;> exact ⟨rfl, rfl⟩

/-- Witness for C10: the hw2 connect trace carries exactly one G write. -/
theorem activation_margin_constant_witness :
    countG (connect ⟨218, true, 4, 2⟩).2 = 1 :=
  (activation_margin_constant.1 ⟨218, true, 4, 2⟩ ⟨4, 2, 1, 75, -75, 1000⟩ rfl).2.1

end Frame2TTL
